import Mathlib

/-!
Verification development for the pyface repository fragment consisting of
src/pyface/data_view/abstract_data_model.py and src/pyface/i_font_dialog.py.

The python module abstract_data_model.py declares the class
AbstractDataModel(ABCHasStrictTraits) with one Instance trait
(index_manager), three Event traits, and seven methods, all decorated with
abstractmethod: get_column_count, can_have_children, get_row_count,
get_value, set_value, get_text, set_text.  Every one of the seven bodies is
"raise NotImplementedError" except get_text, whose body is
"return str(self.get_value(row, column))".

After the class body, at module level, the file holds a triple-quoted
string literal (dead code) containing further would-be methods, among them
get_enabled, get_editable, get_can_check, get_can_drag, get_can_drop,
get_can_select, get_selection and set_selection.

We embed the class declaration shape (method names, abstractness, presence
of a real body), the dead block's functions, the documented contracts, and
a concrete conforming model for the contract claims.
-/

/-- A method of a python class, as declared: its name, whether it carries
the abstractmethod decorator, and whether its body computes anything
(false when the body is just raise NotImplementedError or pass). -/
structure PyMethod where
  name : String
  isAbstract : Bool
  hasBody : Bool
deriving DecidableEq, Repr

/-- The methods actually defined in the class body of AbstractDataModel in
src/pyface/data_view/abstract_data_model.py: seven methods, each decorated
with abstractmethod; only get_text has a computing body
(return str(self.get_value(row, column))). -/
def abstractDataModelMethods : List PyMethod :=
  [ ⟨"get_column_count", true, false⟩,
    ⟨"can_have_children", true, false⟩,
    ⟨"get_row_count", true, false⟩,
    ⟨"get_value", true, false⟩,
    ⟨"set_value", true, false⟩,
    ⟨"get_text", true, true⟩,
    ⟨"set_text", true, false⟩ ]

/-- Whether the class AbstractDataModel defines a method of the given
name in its class body. -/
def providesMethod (methodName : String) : Bool :=
  (abstractDataModelMethods.map PyMethod.name).contains methodName

/-- An ABC with at least one abstract method cannot be instantiated. -/
def instantiable (ms : List PyMethod) : Bool :=
  !(ms.any PyMethod.isAbstract)

/-- The abstract methods of a base class that a subclass overriding the
given names leaves unimplemented. -/
def unimplemented (ms : List PyMethod) (overridden : List String) : List String :=
  (ms.filter (fun m => m.isAbstract && !(overridden.contains m.name))).map PyMethod.name

/-- A subclass of an ABC is instantiable exactly when it overrides every
abstract method of the base. -/
def subclassInstantiable (ms : List PyMethod) (overridden : List String) : Bool :=
  (unimplemented ms overridden).isEmpty

namespace commentedOutBlock

/-- From the dead string literal after the class body: get_enabled returns
True for every row and column. -/
def get_enabled (row column : List Nat) : Bool :=
  let _ := row
  let _ := column
  true

/-- From the dead string literal: get_editable returns False. -/
def get_editable (row column : List Nat) : Bool :=
  let _ := row
  let _ := column
  false

/-- From the dead string literal: get_can_check returns False. -/
def get_can_check (row column : List Nat) : Bool :=
  let _ := row
  let _ := column
  false

/-- From the dead string literal: get_can_drag returns False. -/
def get_can_drag (row column : List Nat) : Bool :=
  let _ := row
  let _ := column
  false

/-- From the dead string literal: get_can_drop returns False. -/
def get_can_drop (row column : List Nat) : Bool :=
  let _ := row
  let _ := column
  false

/-- From the dead string literal: get_can_select returns True. -/
def get_can_select (row column : List Nat) : Bool :=
  let _ := row
  let _ := column
  true

end commentedOutBlock

/-- Modelled from the spec: set_selection(items, ignore_missing) of a
selection provider.  The repository holds only a commented-out stub of
this method (inside the dead string literal, with body pass), so the
behaviour is taken from the spec and from the stub's own docstring: with
ignore_missing False a ValueError is raised when any item is not available
in the selection provider, with ignore_missing True missing elements are
silently ignored and the rest is selected.  Items are identified by
natural numbers; errors are the error side of Except. -/
def set_selection (selectable : List Nat) (items : List Nat)
    (ignore_missing : Bool) : Except String (List Nat) :=
  if ignore_missing then
    Except.ok (items.filter (fun x => selectable.contains x))
  else if items.all (fun x => selectable.contains x) then
    Except.ok items
  else
    Except.error "ValueError: item not available in the selection provider"

/-- A python value, as far as the default get_text body needs one. -/
inductive PyValue where
  | none
  | bool (b : Bool)
  | int (n : Int)
  | str (s : String)
deriving DecidableEq, Repr

/-- The python str conversion on PyValue. -/
def pyStr : PyValue → String
  | PyValue.none => "None"
  | PyValue.bool true => "True"
  | PyValue.bool false => "False"
  | PyValue.int n => toString n
  | PyValue.str s => s

/-- A model that leaves get_text at its default: all that the default body
of get_text reads from self is get_value. -/
structure TextDefaultModel where
  get_value : List Nat → List Nat → PyValue

/-- The default body of get_text from the source, line 162:
return str(self.get_value(row, column)). -/
def TextDefaultModel.get_text (m : TextDefaultModel)
    (row column : List Nat) : String :=
  pyStr (m.get_value row column)

/-- Modelled from the spec: a concrete conforming data model.  No concrete
implementation of AbstractDataModel is under src/, so the contract claims
about conforming models are settled against this adapter, which follows
the documented API: rows are index paths from root to leaf, the root row
(the empty path) carries the column headers, the data rows are the
children of the root, and columns are paths of length one. -/
structure ExampleModel where
  headers : List String
  data : List (List String)
deriving DecidableEq, Repr

namespace ExampleModel

/-- How many columns in the row: this adapter provides the same number of
columns, the number of headers, for every row. -/
def get_column_count (m : ExampleModel) (row : List Nat) : Nat :=
  let _ := row
  m.headers.length

/-- Whether or not a row can have child rows: only the root row (the
empty path) can. -/
def can_have_children (m : ExampleModel) (row : List Nat) : Bool :=
  let _ := m
  row.isEmpty

/-- How many child rows the row currently has: the root row has one child
per data row, every other row is a leaf. -/
def get_row_count (m : ExampleModel) (row : List Nat) : Nat :=
  if row.isEmpty then m.data.length else 0

/-- Return the value for the row and column; the values for column
headers are returned by calling with row as Root (the empty path). -/
def get_value (m : ExampleModel) (row column : List Nat) : Option String :=
  match row, column with
  | [], [j] => m.headers[j]?
  | [i], [j] => m.data[i]?.bind (fun r => r[j]?)
  | _, _ => Option.none

/-- Set the value for the row and column, returning the updated model and
whether or not the value was set successfully: a write to a cell that
does not exist fails softly, returning False and leaving the model
unchanged. -/
def set_value (m : ExampleModel) (row column : List Nat)
    (value : String) : ExampleModel × Bool :=
  match row, column with
  | [], [j] =>
    if j < m.headers.length then
      ({ m with headers := m.headers.set j value }, true)
    else (m, false)
  | [i], [j] =>
    match m.data[i]? with
    | Option.some r =>
      if j < r.length then
        ({ m with data := m.data.set i (r.set j value) }, true)
      else (m, false)
    | Option.none => (m, false)
  | _, _ => (m, false)

/-- Set the text for the row and column: this adapter stores strings, so
the text channel writes through to the value channel, with the same soft
failure mode. -/
def set_text (m : ExampleModel) (row column : List Nat)
    (text : String) : ExampleModel × Bool :=
  m.set_value row column text

end ExampleModel

/-- A data model reduced to its get_column_count method, for the column
count contract. -/
structure ColumnCountModel where
  get_column_count : List Nat → Int

/-- The documented contract of get_column_count: the count is a
non-negative int for every row; nothing more is required, the total
number of columns in the table being by definition the column count of
the Root row. -/
def columnCountContract (m : ColumnCountModel) : Prop :=
  ∀ row, 0 ≤ m.get_column_count row

/-- A conforming model whose root row provides three columns while every
other row provides two. -/
def raggedModel : ColumnCountModel :=
  ⟨fun row => if row.isEmpty then 3 else 2⟩

/-- Modelled from the spec: the AbstractIndexManager class, imported from
the index_manager module which is not under src/; only its identity
matters here. -/
structure AbstractIndexManager where
  tag : Nat
deriving DecidableEq, Repr

/-- The trait state of an AbstractDataModel instance: index_manager is an
Instance(AbstractIndexManager) trait, so it holds None or an
AbstractIndexManager. -/
structure AbstractDataModelState where
  index_manager : Option AbstractIndexManager
deriving DecidableEq, Repr

/-- The state at construction: Instance(AbstractIndexManager) declares no
default, so the trait starts as None. -/
def AbstractDataModelState.defaultState : AbstractDataModelState :=
  { index_manager := Option.none }

/-- An attribute of a python interface, with the trait type it is
declared with. -/
structure PyAttribute where
  name : String
  traitType : String
deriving DecidableEq, Repr

/-- A python interface declaration: its name, its base interface, and the
attributes and methods it declares of its own. -/
structure PyInterface where
  name : String
  base : String
  ownAttributes : List PyAttribute
  ownMethods : List PyMethod
deriving DecidableEq, Repr

/-- The declaration of IFontDialog in src/pyface/i_font_dialog.py: class
IFontDialog(IDialog) with the single trait font = PyfaceFont() and no
methods of its own. -/
def IFontDialog : PyInterface :=
  { name := "IFontDialog"
    base := "IDialog"
    ownAttributes := [⟨"font", "PyfaceFont"⟩]
    ownMethods := [] }

-- Theorems

/-- Helper: a subclass that is instantiable has overridden every abstract
method of the base. -/
theorem overrides_of_subclassInstantiable (ms : List PyMethod)
    (overridden : List String) (m : PyMethod) (hm : m ∈ ms)
    (ha : m.isAbstract = true)
    (h : subclassInstantiable ms overridden = true) :
    overridden.contains m.name = true := by
  by_contra hc
  have hcf : overridden.contains m.name = false := by
    cases hx : overridden.contains m.name
    · rfl
    · exact absurd hx hc
  have hmem : m ∈ ms.filter (fun m => m.isAbstract && !(overridden.contains m.name)) := by
    rw [List.mem_filter]
    exact ⟨hm, by rw [ha, hcf]; rfl⟩
  have : m.name ∈ unimplemented ms overridden := by
    unfold unimplemented
    exact List.mem_map_of_mem PyMethod.name hmem
  rw [subclassInstantiable, List.isEmpty_iff] at h
  rw [h] at this
  exact absurd this (List.not_mem_nil m.name)

/-- C1 counterexample: the class AbstractDataModel does not provide a
method named get_enabled; the function of that name lies in the dead
string literal after the class body, not in the class. -/
theorem C1_counterexample : providesMethod "get_enabled" = false := by
  decide

/-- C1 (amended): none of get_enabled, get_editable, get_can_check,
get_can_drag, get_can_drop, get_can_select is a method of the class
AbstractDataModel; they appear only in the commented-out (string literal)
block after the class body, where they are non-abstract and return the
fixed values the claim states (get_enabled and get_can_select True, the
other four False) for every row and column. -/
theorem C1_amended :
    (["get_enabled", "get_editable", "get_can_check", "get_can_drag",
      "get_can_drop", "get_can_select"].all
        (fun n => !(providesMethod n))) = true ∧
    ∀ row column : List Nat,
      commentedOutBlock.get_enabled row column = true ∧
      commentedOutBlock.get_editable row column = false ∧
      commentedOutBlock.get_can_check row column = false ∧
      commentedOutBlock.get_can_drag row column = false ∧
      commentedOutBlock.get_can_drop row column = false ∧
      commentedOutBlock.get_can_select row column = true := by
  refine ⟨by decide, ?_⟩
  intro row column
  exact ⟨rfl, rfl, rfl, rfl, rfl, rfl⟩

/-- C2: when some item is not in the selectable set, set_selection with
ignore_missing False reports a ValueError, while the same call with
ignore_missing True succeeds and selects exactly the resolvable subset. -/
theorem C2_set_selection (selectable items : List Nat)
    (h : items.all (fun x => selectable.contains x) = false) :
    (∃ msg, set_selection selectable items false = Except.error msg) ∧
    set_selection selectable items true =
      Except.ok (items.filter (fun x => selectable.contains x)) := by
  constructor
  · refine ⟨"ValueError: item not available in the selection provider", ?_⟩
    unfold set_selection
    rw [if_neg (by simp), h]
    rfl
  · rfl

/-- C2 witness: with selectable set 1, 2 and items 1, 3, the item 3 is
missing, ignore_missing False errors, ignore_missing True selects just
the item 1. -/
theorem C2_set_selection_witness :
    (∃ msg, set_selection [1, 2] [1, 3] false = Except.error msg) ∧
    set_selection [1, 2] [1, 3] true = Except.ok [1] :=
  C2_set_selection [1, 2] [1, 3] (by decide)

/-- C3: the default get_text body returns exactly the string conversion
of get_value(row, column), for every model that leaves get_text at its
default and every row and column. -/
theorem C3_get_text_default (m : TextDefaultModel) (row column : List Nat) :
    m.get_text row column = pyStr (m.get_value row column) :=
  rfl

/-- C4: round trip on the conforming model: when set_value reports
success, a subsequent get_value at the same row and column returns the
written value (consistency here being exact equality of strings). -/
theorem C4_round_trip (m : ExampleModel) (row column : List Nat)
    (value : String) (m' : ExampleModel)
    (h : m.set_value row column value = (m', true)) :
    m'.get_value row column = Option.some value := by
  match row, column with
  | [], [j] =>
    simp only [ExampleModel.set_value] at h
    by_cases hj : j < m.headers.length
    · rw [if_pos hj] at h
      cases h
      simp only [ExampleModel.get_value]
      exact List.getElem?_set_eq_of_lt _ hj
    · rw [if_neg hj] at h
      exact absurd (congrArg Prod.snd h) (by simp)
  | [i], [j] =>
    simp only [ExampleModel.set_value] at h
    split at h
    next r hr =>
      by_cases hj : j < r.length
      · rw [if_pos hj] at h
        cases h
        have hi : i < m.data.length := by
          by_contra hni
          rw [List.getElem?_eq_none (Nat.le_of_not_lt hni)] at hr
          exact absurd hr (by simp)
        simp only [ExampleModel.get_value]
        simp only [List.getElem?_set_eq_of_lt _ hi, Option.bind_some]
        exact List.getElem?_set_eq_of_lt _ hj
      · rw [if_neg hj] at h
        exact absurd (congrArg Prod.snd h) (by simp)
    next hr =>
      exact absurd (congrArg Prod.snd h) (by simp)
  | [], [] => exact absurd (congrArg Prod.snd h) (by simp [ExampleModel.set_value])
  | [], _ :: _ :: _ => exact absurd (congrArg Prod.snd h) (by simp [ExampleModel.set_value])
  | [_], [] => exact absurd (congrArg Prod.snd h) (by simp [ExampleModel.set_value])
  | [_], _ :: _ :: _ => exact absurd (congrArg Prod.snd h) (by simp [ExampleModel.set_value])
  | _ :: _ :: _, [] => exact absurd (congrArg Prod.snd h) (by simp [ExampleModel.set_value])
  | _ :: _ :: _, [_] => exact absurd (congrArg Prod.snd h) (by simp [ExampleModel.set_value])
  | _ :: _ :: _, _ :: _ :: _ => exact absurd (congrArg Prod.snd h) (by simp [ExampleModel.set_value])

/-- C4 witness: writing x into row 0, column 1 of a 1-by-2 model succeeds
and reading it back returns x. -/
theorem C4_round_trip_witness :
    (ExampleModel.get_value ⟨["h0", "h1"], [["a", "x"]]⟩ [0] [1]) =
      Option.some "x" :=
  C4_round_trip ⟨["h0", "h1"], [["a", "b"]]⟩ [0] [1] "x"
    ⟨["h0", "h1"], [["a", "x"]]⟩ (by decide)

/-- C5: on the conforming model, every row that cannot have children has
row count zero. -/
theorem C5_childless (m : ExampleModel) (row : List Nat)
    (h : m.can_have_children row = false) :
    m.get_row_count row = 0 := by
  unfold ExampleModel.get_row_count
  unfold ExampleModel.can_have_children at h
  rw [if_neg]
  intro he
  rw [he] at h
  exact absurd h (by decide)

/-- C5 witness: the leaf row with path 0 cannot have children and has row
count zero. -/
theorem C5_childless_witness :
    ExampleModel.get_row_count ⟨["h"], [["a"]]⟩ [0] = 0 :=
  C5_childless ⟨["h"], [["a"]]⟩ [0] (by decide)

/-- C6: the documented column count contract (a non-negative count for
every row, the total table width being the root row count by definition)
does not force every row to share the root row count: raggedModel
conforms yet its root row provides three columns while row 0 provides
two. -/
theorem C6_ragged_columns :
    columnCountContract raggedModel ∧
    raggedModel.get_column_count [] ≠ raggedModel.get_column_count [0] := by
  constructor
  · intro row
    unfold raggedModel
    by_cases h : row.isEmpty
    · simp [h]
    · simp [h]
  · decide

/-- C7: on the conforming model, a failed write signals failure solely
through the returned boolean: writing to a cell that does not exist
returns False for both set_value and set_text and leaves the model
unchanged, with no error raised (both operations are total functions
into a model-boolean pair). -/
theorem C7_soft_failure (m : ExampleModel) (row column : List Nat)
    (value : String) (h : m.get_value row column = Option.none) :
    m.set_value row column value = (m, false) ∧
    m.set_text row column value = (m, false) := by
  have hset : m.set_value row column value = (m, false) := by
    match row, column with
    | [], [j] =>
      simp only [ExampleModel.get_value] at h
      simp only [ExampleModel.set_value]
      rw [if_neg]
      intro hj
      rw [List.getElem?_eq_getElem hj] at h
      exact absurd h (by simp)
    | [i], [j] =>
      simp only [ExampleModel.get_value] at h
      simp only [ExampleModel.set_value]
      split
      next r hr =>
        rw [hr] at h
        rw [if_neg]
        intro hj
        have h2 : r[j]? = Option.none := h
        rw [List.getElem?_eq_getElem hj] at h2
        exact absurd h2 (by simp)
      next hr => rfl
    | [], [] => rfl
    | [], _ :: _ :: _ => rfl
    | [_], [] => rfl
    | [_], _ :: _ :: _ => rfl
    | _ :: _ :: _, [] => rfl
    | _ :: _ :: _, [_] => rfl
    | _ :: _ :: _, _ :: _ :: _ => rfl
  exact ⟨hset, hset⟩

/-- C7 witness: writing to column 5 of the single data row of a 1-by-1
model fails softly: both writes return the unchanged model and False. -/
theorem C7_soft_failure_witness :
    ExampleModel.set_value ⟨["h"], [["a"]]⟩ [0] [5] "v" = (⟨["h"], [["a"]]⟩, false) ∧
    ExampleModel.set_text ⟨["h"], [["a"]]⟩ [0] [5] "v" = (⟨["h"], [["a"]]⟩, false) :=
  C7_soft_failure ⟨["h"], [["a"]]⟩ [0] [5] "v" (by decide)

/-- C8: IFontDialog declares exactly one attribute of its own, the font
trait, no methods of its own, and inherits from the base dialog
interface IDialog (whose open, cancel and result semantics it thereby
takes unchanged). -/
theorem C8_font_dialog :
    IFontDialog.ownAttributes = [⟨"font", "PyfaceFont"⟩] ∧
    IFontDialog.ownAttributes.length = 1 ∧
    IFontDialog.ownMethods = [] ∧
    IFontDialog.base = "IDialog" := by
  refine ⟨rfl, rfl, rfl, rfl⟩

/-- C9: all seven data operations of AbstractDataModel carry the
abstractmethod decorator, get_text included even though it alone carries
a computing default body, so the class itself is not instantiable and
any instantiable subclass must override all seven, get_text among
them. -/
theorem C9_all_abstract :
    instantiable abstractDataModelMethods = false ∧
    abstractDataModelMethods.find? (fun m => m.name == "get_text") =
      Option.some ⟨"get_text", true, true⟩ ∧
    (abstractDataModelMethods.all (fun m => m.isAbstract)) = true ∧
    ∀ overridden : List String,
      subclassInstantiable abstractDataModelMethods overridden = true →
      (["get_column_count", "can_have_children", "get_row_count",
        "get_value", "set_value", "get_text", "set_text"].all
          (fun n => overridden.contains n)) = true := by
  refine ⟨by decide, by decide, by decide, ?_⟩
  intro overridden h
  simp only [List.all_cons, List.all_nil, Bool.and_true, Bool.and_eq_true]
  exact ⟨overrides_of_subclassInstantiable abstractDataModelMethods overridden
           ⟨"get_column_count", true, false⟩ (by decide) rfl h,
         overrides_of_subclassInstantiable abstractDataModelMethods overridden
           ⟨"can_have_children", true, false⟩ (by decide) rfl h,
         overrides_of_subclassInstantiable abstractDataModelMethods overridden
           ⟨"get_row_count", true, false⟩ (by decide) rfl h,
         overrides_of_subclassInstantiable abstractDataModelMethods overridden
           ⟨"get_value", true, false⟩ (by decide) rfl h,
         overrides_of_subclassInstantiable abstractDataModelMethods overridden
           ⟨"set_value", true, false⟩ (by decide) rfl h,
         overrides_of_subclassInstantiable abstractDataModelMethods overridden
           ⟨"get_text", true, true⟩ (by decide) rfl h,
         overrides_of_subclassInstantiable abstractDataModelMethods overridden
           ⟨"set_text", true, false⟩ (by decide) rfl h⟩

/-- C9 witness: the subclass overriding exactly the seven names is
instantiable, and the theorem then reports all seven among the
overridden names. -/
theorem C9_all_abstract_witness :
    instantiable abstractDataModelMethods = false ∧
    (["get_column_count", "can_have_children", "get_row_count",
      "get_value", "set_value", "get_text", "set_text"].all
        (fun n =>
          (["get_column_count", "can_have_children", "get_row_count",
            "get_value", "set_value", "get_text", "set_text"].contains n)))
      = true := by
  refine ⟨(C9_all_abstract).1, ?_⟩
  exact (C9_all_abstract).2.2.2
    ["get_column_count", "can_have_children", "get_row_count",
     "get_value", "set_value", "get_text", "set_text"] (by decide)

/-- C10: index_manager is an Instance(AbstractIndexManager) trait with no
default, so a freshly constructed data model has index_manager None, and
in every state the trait is either None or an AbstractIndexManager
instance. -/
theorem C10_index_manager :
    AbstractDataModelState.defaultState.index_manager = Option.none ∧
    ∀ s : AbstractDataModelState,
      s.index_manager = Option.none ∨
      ∃ im : AbstractIndexManager, s.index_manager = Option.some im := by
  refine ⟨rfl, ?_⟩
  intro s
  cases h : s.index_manager with
  | none => exact Or.inl rfl
  | some im => exact Or.inr ⟨im, rfl⟩
